import Mathlib

/-!
Verification development for the FireGPT RAG service (`FireGPT/app.py`).

Python strings are modelled as `List Char` (`Chars`); the regular-expression
fragments actually used by the code (`re.sub` in `to_markdown`, `re.search` in
`extract_place_name`) are embedded by a small continuation-passing backtracking
matcher that reproduces Python's leftmost, ordered-alternative, greedy
semantics for exactly the constructs those patterns use.  External effects
(LlamaCpp construction, HTTP geocoding, the Overpass lookup, the RAG chain
invocation) are modelled as explicit oracle parameters, so every function of
the source becomes a pure function of its inputs and those oracles.
-/

namespace FireGPT

abbrev Chars := List Char

/-- ASCII fragment of Python's `\s` class (the inputs handled by the service
are ASCII; Python additionally accepts some unicode spaces). -/
def isPySpace (c : Char) : Bool :=
  c = ' ' || c = '\t' || c = '\n' || c = '\r' || c = '\x0b' || c = '\x0c'

def isUpperAZ (c : Char) : Bool := 'A' ≤ c && c ≤ 'Z'

def isLowerAZ (c : Char) : Bool := 'a' ≤ c && c ≤ 'z'

def isDigit09 (c : Char) : Bool := '0' ≤ c && c ≤ '9'

/-- Python `str.strip()` on a character list. -/
def pyStrip (s : Chars) : Chars :=
  ((s.dropWhile isPySpace).reverse.dropWhile isPySpace).reverse

/-- Python `str.lower()` restricted to ASCII letters, as used on OSM type
tags. -/
def pyLower (s : Chars) : Chars := s.map Char.toLower

/-- Substring test (`needle in haystack` on Python strings). -/
def containsSub : Chars → Chars → Bool
  | needle, [] => needle.isPrefixOf []
  | needle, c :: t => needle.isPrefixOf (c :: t) || containsSub needle t

/-- Python `str.title()` restricted to ASCII: uppercase a letter that does not
follow a letter, lowercase a letter that does. -/
def pyTitleGo : Bool → Chars → Chars
  | _, [] => []
  | prevAlpha, c :: t =>
    if isUpperAZ c || isLowerAZ c then
      (if prevAlpha then c.toLower else c.toUpper) :: pyTitleGo true t
    else
      c :: pyTitleGo false t

def pyTitle (s : Chars) : Chars := pyTitleGo false s

/-- Python `str.replace('_', ' ')`. -/
def replaceUnderscore (s : Chars) : Chars :=
  s.map fun c => if c = '_' then ' ' else c

/-!
### A CPS backtracking matcher

`M β` consumes a prefix of the input and passes the rest to a continuation;
alternatives are tried in order and a later alternative is tried exactly when
the earlier one (with its continuation) failed, which is Python's backtracking
order.  Greedy `*`/`+` are implemented by preferring the consuming branch.
The star is fuelled by the current input length: every repetition body in the
patterns below consumes at least one character, so the fuel is never
exhausted.
-/

def M (β : Type) : Type := Chars → (Chars → Option β) → Option β

/-- Match a literal string. -/
def lit (w : Chars) : M β := fun s k =>
  if w.isPrefixOf s then k (s.drop w.length) else none

/-- Match a single character satisfying `p`. -/
def cls (p : Char → Bool) : M β := fun s k =>
  match s with
  | [] => none
  | c :: t => if p c then k t else none

/-- Match the empty string. -/
def eps : M β := fun s k => k s

/-- Sequencing of matchers. -/
def mseq (m₁ m₂ : M β) : M β := fun s k => m₁ s (fun r => m₂ r k)

/-- Ordered alternation (the left alternative is preferred, as in Python). -/
def malt (m₁ m₂ : M β) : M β := fun s k => (m₁ s k).orElse (fun _ => m₂ s k)

def alts : List (M β) → M β
  | [] => fun _ _ => none
  | [m] => m
  | m :: ms => malt m (alts ms)

/-- Greedy `?`. -/
def mopt (m : M β) : M β := malt m eps

def starGo (m : M β) : Nat → M β
  | 0 => eps
  | n + 1 => malt (mseq m (starGo m n)) eps

/-- Greedy `*` (fuelled by the input length; exact for repetition bodies that
consume at least one character, as all bodies below do). -/
def mstar (m : M β) : M β := fun s k => starGo m s.length s k

/-- Greedy `+`. -/
def mplus (m : M β) : M β := mseq m (mstar m)

def wsStar : M β := mstar (cls isPySpace)

def wsPlus : M β := mplus (cls isPySpace)

def litS (w : String) : M β := lit w.toList

/-!
### `extract_place_name`

The three patterns of the source, with `re.search` semantics (try every start
position from the left; first pattern in the list that matches anywhere wins;
the returned value is capture group 1, stripped).
-/

/-- `[A-Z][a-z]+`. -/
def wordM : M β := mseq (cls isUpperAZ) (mplus (cls isLowerAZ))

/-- `[A-Z][a-z]+(?:\s+[A-Z][a-z]+)*`, the capture-group body. -/
def wordsM : M β := mseq wordM (mstar (mseq wsPlus wordM))

/-- Pattern `(?:fire|wildfire|incident)?\s*(?:in|at|near|around)\s+CAP`
anchored at the current position; returns the text captured by `CAP`. -/
def pat1At (s : Chars) : Option Chars :=
  mopt (alts [litS "fire", litS "wildfire", litS "incident"]) s fun r1 =>
    wsStar r1 fun r2 =>
      alts [litS "in", litS "at", litS "near", litS "around"] r2 fun r3 =>
        wsPlus r3 fun r4 =>
          wordsM r4 fun r5 => some (r4.take (r4.length - r5.length))

/-- Pattern `(?:in|at|near|around)\s+CAP\s*(?:fire|wildfire)?` anchored at the
current position. -/
def pat2At (s : Chars) : Option Chars :=
  alts [litS "in", litS "at", litS "near", litS "around"] s fun r1 =>
    wsPlus r1 fun r2 =>
      wordsM r2 fun r3 =>
        wsStar r3 fun r4 =>
          mopt (alts [litS "fire", litS "wildfire"]) r4 fun _ =>
            some (r2.take (r2.length - r3.length))

/-- Pattern `CAP\s+(?:fire|wildfire)` anchored at the current position. -/
def pat3At (s : Chars) : Option Chars :=
  wordsM s fun r1 =>
    wsPlus r1 fun r2 =>
      alts [litS "fire", litS "wildfire"] r2 fun _ =>
        some (s.take (s.length - r1.length))

/-- `re.search`: try the anchored matcher at every position, leftmost first. -/
def searchAt (p : Chars → Option Chars) : Chars → Option Chars
  | [] => p []
  | c :: t => (p (c :: t)).orElse (fun _ => searchAt p t)

/-- `extract_place_name` from the source: strip the question, try the three
patterns in order, return the stripped first capture group. -/
def extract_place_name (question : String) : Option String :=
  let q := pyStrip question.toList
  match searchAt pat1At q with
  | some g => some (String.mk (pyStrip g))
  | none =>
    match searchAt pat2At q with
    | some g => some (String.mk (pyStrip g))
    | none =>
      match searchAt pat3At q with
      | some g => some (String.mk (pyStrip g))
      | none => none

/-!
### `to_markdown`

Each `re.sub` pattern of the source has the shape `(^|\n)CORE` with
replacement `\1REPL`.  A rule is a function that tries `CORE` at the current
position and returns the replacement text together with the unconsumed rest.
`subGo` reproduces `re.sub`: scan left to right; a match can start at the
beginning of the string (group 1 empty) or at a newline (group 1 `\n`, which
is kept by the replacement); scanning resumes after the match, so matches do
not overlap.  The fuel is the input length plus one; every rule consumes at
least one character when it matches, so the fuel is never exhausted.
-/

/-- A substitution rule: try the pattern core at this position, give back the
replacement for the consumed text and the rest of the input. -/
abbrev SubRule := Chars → Option (Chars × Chars)

/-- Core `\s*H\s*:?\s*\n` of the section-header rule, with replacement
`## H\n`. -/
def tryHeader (h : Chars) : SubRule := fun s =>
  wsStar s fun r1 =>
    lit h r1 fun r2 =>
      wsStar r2 fun r3 =>
        mopt (lit [':']) r3 fun r4 =>
          wsStar r4 fun r5 =>
            lit ['\n'] r5 fun r6 =>
              some ("## ".toList ++ h ++ ['\n'], r6)

/-- Core `\s*(\d+)\.\s+` of the numbered-list rule, with replacement
`\2. ` (the captured digits, a dot and a single space). -/
def tryNumber : SubRule := fun s =>
  wsStar s fun r1 =>
    mplus (cls isDigit09) r1 fun r2 =>
      lit ['.'] r2 fun r3 =>
        wsPlus r3 fun r4 =>
          some (r1.take (r1.length - r2.length) ++ ['.', ' '], r4)

/-- Core `\s*-\s+` of the bullet rule, with replacement `- `. -/
def tryBullet : SubRule := fun s =>
  wsStar s fun r1 =>
    lit ['-'] r1 fun r2 =>
      wsPlus r2 fun r3 =>
        some (['-', ' '], r3)

/-- One `re.sub` pass.  The `Bool` records whether we are at the very start of
the string (where group 1 may match empty); elsewhere a match must begin at a
newline, which the replacement keeps (`\1`). -/
def subGo (r : SubRule) : Nat → Bool → Chars → Chars
  | 0, _, s => s
  | n + 1, true, s =>
    match r s with
    | some (rep, rest) => rep ++ subGo r n false rest
    | none =>
      match s with
      | [] => []
      | c :: t =>
        if c = '\n' then
          match r t with
          | some (rep, rest) => c :: (rep ++ subGo r n false rest)
          | none => c :: subGo r n false t
        else c :: subGo r n false t
  | n + 1, false, s =>
    match s with
    | [] => []
    | c :: t =>
      if c = '\n' then
        match r t with
        | some (rep, rest) => c :: (rep ++ subGo r n false rest)
        | none => c :: subGo r n false t
      else c :: subGo r n false t

def subOnce (r : SubRule) (s : Chars) : Chars := subGo r (s.length + 1) true s

/-- Does the pattern of a rule match anywhere?  Mirrors the traversal of
`subGo` exactly. -/
def hasGo (r : SubRule) : Nat → Bool → Chars → Bool
  | 0, _, _ => false
  | n + 1, true, s =>
    match r s with
    | some _ => true
    | none =>
      match s with
      | [] => false
      | c :: t =>
        if c = '\n' then
          match r t with
          | some _ => true
          | none => hasGo r n false t
        else hasGo r n false t
  | n + 1, false, s =>
    match s with
    | [] => false
    | c :: t =>
      if c = '\n' then
        match r t with
        | some _ => true
        | none => hasGo r n false t
      else hasGo r n false t

def ruleMatches (r : SubRule) (s : Chars) : Bool := hasGo r (s.length + 1) true s

/-- The fixed section-header list of `to_markdown`, in source order. -/
def section_headers : List String :=
  ["Situation Overview", "Immediate Actions", "Resource Utilization",
   "Safety Considerations", "Ongoing Monitoring", "Action Plan for Fire at",
   "Context", "Question", "Summary", "Instructions", "Recommendations",
   "Plan"]

/-- All substitution rules of `to_markdown`, in the order they are applied:
the twelve header rules, then the numbered-list rule, then the bullet rule. -/
def ruleList : List SubRule :=
  section_headers.map (fun h => tryHeader h.toList) ++ [tryNumber, tryBullet]

def applyRules (rules : List SubRule) (s : Chars) : Chars :=
  rules.foldl (fun t r => subOnce r t) s

/-- `to_markdown` from the source: the three groups of `re.sub` passes. -/
def to_markdown (text : String) : String :=
  String.mk (applyRules ruleList text.toList)

/-- No rule of `to_markdown` matches anywhere in `s`. -/
def noRuleMatches (s : String) : Bool :=
  ruleList.all fun r => !ruleMatches r s.toList

/-!
### `truncate_docs`

`"\n\n".join(doc.page_content for doc in docs)[:max_chars]`; the document
objects are represented by their `page_content` strings.
-/

def truncate_docs (docs : List Chars) (max_chars : Nat) : Chars :=
  (List.intercalate "\n\n".toList docs).take max_chars

/-!
### Model registry (`load_llm`, startup selection, `set_model`)

The active generation backend is the module-global pair `llm`/`current_model`.
`LlamaCpp` construction can fail; the outcome is an oracle
`construct : Option String → Except String Unit` whose error value is the
Python `str(e)`.  `llm` starts out as `None` and is an `Option Backend` here;
the claims are about it being `some _` after the loader ran.
-/

inductive Backend where
  | llama (model_path : String)
  | dummy (message : String)
deriving DecidableEq, Repr

/-- The fixed message of the `--dummy` stub. -/
def dummyModeMsg : String :=
  "This is a placeholder response for UI development. The actual LLM is not loaded."

/-- Prefix of the fallback stub's message; the construction failure reason is
appended. -/
def failPrefix : String :=
  "This is a placeholder response. LLaMA model failed to load: "

structure LlmState where
  llm : Option Backend
  current_model : Option String
deriving DecidableEq, Repr

/-- `load_llm` from the source: install the dummy backend, or try to construct
a `LlamaCpp` backend and fall back to a stub embedding the failure reason. -/
def load_llm (construct : Option String → Except String Unit) (st : LlmState)
    (model_path : Option String) (use_dummy : Bool) : LlmState :=
  if use_dummy then
    { llm := some (.dummy dummyModeMsg), current_model := none }
  else
    match construct model_path with
    | .ok _ => { llm := some (.llama (model_path.getD "")), current_model := model_path }
    | .error e => { llm := some (.dummy (failPrefix ++ e)), current_model := none }

/-- The initial state before any loader ran (`llm = None`). -/
def initState : LlmState := { llm := none, current_model := none }

/-- The startup selection path: `--dummy` flag, else the first `*.gguf` found
by the glob, else the dummy stub. -/
def startupLoad (construct : Option String → Except String Unit)
    (args_dummy : Bool) (gguf_models : List String) : LlmState :=
  if args_dummy then
    load_llm construct initState none true
  else
    match gguf_models with
    | default_model :: _ => load_llm construct initState (some default_model) false
    | [] => load_llm construct initState none true

/-- `os.path.basename` for the POSIX paths the service handles: everything
after the last slash. -/
def basename (p : String) : String :=
  String.mk ((p.toList.reverse.takeWhile fun c => c ≠ '/').reverse)

inductive SetModelResp where
  | err (msg : String)
  | ok (current : String)
deriving DecidableEq, Repr

/-- `POST /set_model`: reject a missing/empty/nonexistent path with 400,
otherwise run `load_llm` (which never raises — its failure branch installs
the stub) and report success with the basename. -/
def set_model (construct : Option String → Except String Unit)
    (path_exists : String → Bool) (st : LlmState) (body_model : Option String) :
    (Nat × SetModelResp) × LlmState :=
  match body_model with
  | none => ((400, .err "Model not found"), st)
  | some m =>
    if m = "" || !path_exists m then
      ((400, .err "Model not found"), st)
    else
      (((200, .ok (basename m))), load_llm construct st (some m) false)

/-!
### `geocode_place` and the `/ask` endpoint

The HTTP outcome of the Nominatim request is an oracle value: either an
exception (which also covers a malformed body or a failing `float(...)`
conversion, since the whole body of `geocode_place` is inside `try`), or a
status code together with the parsed result list, each entry carrying the
numeric lat/lon of the geocoder (floats idealized as `ℚ`).
-/

abbrev GeoHttp := Except Unit (Nat × List (ℚ × ℚ))

/-- `geocode_place` from the source: `(None, None)` on exception, non-200
status or empty result list; else the coordinates of the first result. -/
def geocode_place (resp : GeoHttp) : Option ℚ × Option ℚ :=
  match resp with
  | .error _ => (none, none)
  | .ok (status, results) =>
    match results with
    | r :: _ => if status = 200 then (some r.1, some r.2) else (none, none)
    | [] => (none, none)

structure AskLocation where
  name : Option String
  lat : ℚ
  lon : ℚ
deriving DecidableEq, Repr

inductive AskResult where
  | badRequest
  | response (text : String) (location : Option AskLocation)
deriving DecidableEq, Repr

/-- The location-block computation of `/ask`: extract a place from the
original question (geocoding only runs for a truthy, i.e. nonempty, place
name), then attach the block exactly when `lat and lon` is truthy in Python —
both coordinates present and nonzero.  By construction a block always carries
both coordinates (never a half-filled block). -/
def askLocationOf (geoResp : String → GeoHttp) (q : String) :
    Option AskLocation :=
  let place := extract_place_name q
  let ll : Option ℚ × Option ℚ :=
    match place with
    | some p => if p = "" then (none, none) else geocode_place (geoResp p)
    | none => (none, none)
  match ll with
  | (some la, some lo) =>
    if la ≠ 0 ∧ lo ≠ 0 then some ⟨place, la, lo⟩ else none
  | _ => none

/-- The `/ask` endpoint.  `ragInvoke` is the RAG chain (retriever, prompt,
model and output parser composed); `geoResp` is the geocoder HTTP oracle per
place name. -/
def ask (ragInvoke : String → String) (geoResp : String → GeoHttp)
    (body_query : Option String) : AskResult :=
  match body_query with
  | none => .badRequest
  | some q =>
    if q = "" then .badRequest
    else .response (to_markdown (ragInvoke q)) (askLocationOf geoResp q)

/-!
### `fetch_surroundings` and `plan_action`

`fetch_surroundings` post-processes the Overpass elements: name and
human-readable type from the tags, coordinates from the node or the way
center, planar distance `sqrt(dlat² + dlon²) * 111.32`, then an ascending
sort by distance.  Floats are idealized as real numbers, so this part is
noncomputable; the downstream `plan_action` processing is polymorphic in the
coordinate type (the Python code is duck-typed) and stays computable.
-/

structure SurroundingLoc (α : Type) where
  name : String
  type_ : String
  lat : α
  lon : α
  distance : α
deriving DecidableEq, Repr

structure OsmElement where
  elem_type : String
  tags : List (String × String)
  lat : Option ℝ
  lon : Option ℝ
  center_lat : Option ℝ
  center_lon : Option ℝ

def tagGet (tags : List (String × String)) (key : String) : Option String :=
  (tags.find? fun kv => kv.1 = key).map fun kv => kv.2

/-- The `location_type` computation of `fetch_surroundings`. -/
def locationType (tags : List (String × String)) : String :=
  match tagGet tags "amenity" with
  | some v => String.mk (pyTitle (replaceUnderscore v.toList))
  | none =>
    match tagGet tags "natural" with
    | some v => String.mk (pyTitle (replaceUnderscore v.toList))
    | none =>
      match tagGet tags "landuse" with
      | some v => String.mk (pyTitle (replaceUnderscore v.toList))
      | none =>
        match tagGet tags "highway" with
        | some _ => "Road"
        | none => "Unknown"

/-- One loop iteration of `fetch_surroundings`: skip an element without
coordinates, otherwise build the record with the planar distance. -/
noncomputable def elemToLoc (lat lon : ℝ) (e : OsmElement) :
    Option (SurroundingLoc ℝ) :=
  let coords : Option ℝ × Option ℝ :=
    if e.elem_type = "node" then (e.lat, e.lon) else (e.center_lat, e.center_lon)
  match coords with
  | (some el_lat, some el_lon) =>
    some { name := (tagGet e.tags "name").getD "Unnamed location",
           type_ := locationType e.tags,
           lat := el_lat, lon := el_lon,
           distance := Real.sqrt ((el_lat - lat) ^ 2 + (el_lon - lon) ^ 2) * 111.32 }
  | _ => none

/-- `fetch_surroundings` with the Overpass response elements as input:
build the list of located elements and sort it ascending by distance. -/
noncomputable def fetch_surroundings (elements : List OsmElement)
    (lat lon : ℝ) : List (SurroundingLoc ℝ) :=
  (elements.filterMap (elemToLoc lat lon)).mergeSort
    fun p q => decide (p.distance ≤ q.distance)

/-- The six resource buckets of `plan_action`, in dict insertion order. -/
structure ResourceCats (α : Type) where
  fire_station : List (SurroundingLoc α)
  police : List (SurroundingLoc α)
  hospital : List (SurroundingLoc α)
  water_source : List (SurroundingLoc α)
  residential_area : List (SurroundingLoc α)
  forest : List (SurroundingLoc α)
deriving DecidableEq, Repr

def emptyCats {α : Type} : ResourceCats α := ⟨[], [], [], [], [], []⟩

/-- The `if/elif` chain of `plan_action`: append the point to the first
bucket whose key word occurs in the lowercased type tag. -/
def addLoc {α : Type} (cats : ResourceCats α) (l : SurroundingLoc α) :
    ResourceCats α :=
  let t := pyLower l.type_.toList
  if containsSub "fire".toList t then
    { cats with fire_station := cats.fire_station ++ [l] }
  else if containsSub "police".toList t then
    { cats with police := cats.police ++ [l] }
  else if containsSub "hospital".toList t then
    { cats with hospital := cats.hospital ++ [l] }
  else if containsSub "water".toList t then
    { cats with water_source := cats.water_source ++ [l] }
  else if containsSub "residential".toList t then
    { cats with residential_area := cats.residential_area ++ [l] }
  else if containsSub "forest".toList t then
    { cats with forest := cats.forest ++ [l] }
  else cats

/-- Bucket the 30 closest points (`surroundings[:30]`). -/
def buildCats {α : Type} (surroundings : List (SurroundingLoc α)) :
    ResourceCats α :=
  (surroundings.take 30).foldl addLoc emptyCats

/-- Category names in report order, used both to render and to state the
bucketing rule. -/
inductive Category where
  | fireStation | police | hospital | waterSource | residentialArea | forest
deriving DecidableEq, Repr

def getCat {α : Type} (cats : ResourceCats α) : Category → List (SurroundingLoc α)
  | .fireStation => cats.fire_station
  | .police => cats.police
  | .hospital => cats.hospital
  | .waterSource => cats.water_source
  | .residentialArea => cats.residential_area
  | .forest => cats.forest

/-- The ordered category table: display name and case-insensitive key. -/
def categoryTable : List (Category × String × String) :=
  [(.fireStation, "Fire Station", "fire"),
   (.police, "Police", "police"),
   (.hospital, "Hospital", "hospital"),
   (.waterSource, "Water Source", "water"),
   (.residentialArea, "Residential Area", "residential"),
   (.forest, "Forest", "forest")]

/-- The first category (in table order) whose key occurs as a substring of
the lowercased raw type tag — the bucketing rule as the claim states it. -/
def firstCat {α : Type} (l : SurroundingLoc α) : Option Category :=
  (categoryTable.find? fun row =>
    containsSub row.2.2.toList (pyLower l.type_.toList)).map fun row => row.1

/-- One rendered resource entry: `- name (type) - d km away`; `fmt` models the
Python `f"{d:.1f}"` float formatting. -/
def entryLine {α : Type} (fmt : α → String) (l : SurroundingLoc α) : String :=
  "- " ++ l.name ++ " (" ++ l.type_ ++ ") - " ++ fmt l.distance ++ " km away\n"

/-- The at-most-ten entries rendered for one category (`locations[:10]`). -/
def entriesFor {α : Type} (fmt : α → String) (cats : ResourceCats α)
    (c : Category) : List String :=
  ((getCat cats c).take 10).map (entryLine fmt)

/-- One category section of the resources report (empty categories render
nothing). -/
def sectionFor {α : Type} (fmt : α → String) (cats : ResourceCats α)
    (c : Category) (display : String) : String :=
  if (getCat cats c).isEmpty then ""
  else
    "\n" ++ display ++ " (Closest " ++ toString (getCat cats c).length ++ "):\n"
      ++ String.join (entriesFor fmt cats c)

/-- The structured resources report of `plan_action`. -/
def buildReport {α : Type} (fmt : α → String) (cats : ResourceCats α) : String :=
  "Nearby Emergency Resources:\n"
    ++ String.join (categoryTable.map fun row => sectionFor fmt cats row.1 row.2.1)

/-- The synthesized action-plan prompt. -/
def planPrompt {α : Type} (fmt : α → String) (lat lon : α) (report : String) :
    String :=
  "Create a action plan for a fire at " ++ fmt lat ++ ", " ++ fmt lon
    ++ ".\nSurrounding area info:\n" ++ report ++ "\n\n"

structure Markers (α : Type) where
  fire : α × α
  safe_zones : List (α × α)
  crews : List (α × α)
  aerial : List (α × α)
  hospitals : List (α × α)
  water_sources : List (α × α)
deriving DecidableEq, Repr

/-- The marker synthesis of `plan_action`. -/
def buildMarkers {α : Type} (lat lon : α) (cats : ResourceCats α) : Markers α :=
  { fire := (lat, lon),
    safe_zones := (cats.residential_area.map fun l => (l.lat, l.lon)).take 3,
    crews := cats.fire_station.map fun l => (l.lat, l.lon),
    aerial := [],
    hospitals := cats.hospital.map fun l => (l.lat, l.lon),
    water_sources := cats.water_source.map fun l => (l.lat, l.lon) }

inductive PlanResult (α : Type) where
  | badRequest
  | serverError (msg : String)
  | success (plan : String) (markers : Markers α)
deriving DecidableEq, Repr

/-- The `/plan_action` endpoint.  `surroundingsOf` is the (already sorted)
result of `fetch_surroundings` — a lookup failure has already degraded to the
empty list inside it; `ragInvoke` is the RAG chain on the synthesized prompt,
whose runtime failure produces the 500 branch. -/
def plan_action {α : Type} (ragInvoke : String → Except String String)
    (fmt : α → String) (surroundingsOf : α → α → List (SurroundingLoc α))
    (body_lat body_lon : Option α) : PlanResult α :=
  match body_lat, body_lon with
  | some lat, some lon =>
    let surroundings := surroundingsOf lat lon
    let cats := buildCats surroundings
    let report := buildReport fmt cats
    let prompt := planPrompt fmt lat lon report
    match ragInvoke prompt with
    | .error e => .serverError e
    | .ok plan => .success (to_markdown plan) (buildMarkers lat lon cats)
  | _, _ => .badRequest

/-!
## Theorems for the claims
-/

/-- An apostrophe, kept out of string literals. -/
def apos : Char := Char.ofNat 39

/-- The query string `It's windy today` of the spec example. -/
def windyQuery : String := "It" ++ apos.toString ++ "s windy today"

/-- Claim C8: the place extractor satisfies the two specified examples:
`extract_place_name "Wildfire near Los Angeles"` returns `"Los Angeles"` and
`extract_place_name "It's windy today"` returns none. -/
theorem extract_place_name_examples :
    extract_place_name "Wildfire near Los Angeles" = some "Los Angeles" ∧
    extract_place_name windyQuery = none := by
  constructor <;> rfl

/-- Claim C4: for every sequence of retrieved chunks the assembled context is the
chunk texts joined by a blank-line separator and hard-truncated to the first
6000 characters; its length never exceeds the budget, and zero chunks yield
the empty context. -/
theorem truncate_docs_budget :
    ∀ docs : List Chars,
      truncate_docs docs 6000 = (List.intercalate "\n\n".toList docs).take 6000 ∧
      (truncate_docs docs 6000).length ≤ 6000 ∧
      truncate_docs [] 6000 = [] := by
  intro docs
  refine ⟨rfl, ?_, rfl⟩
  simp only [truncate_docs, List.length_take]
  exact Nat.min_le_left _ _

/-- Claim C9: `geocode_place` is total at its interface: every failure mode
(exception, non-200 status, empty result list) yields `(none, none)`, and on
success it returns exactly the coordinates of the first geocoder result. -/
theorem geocode_place_interface :
    geocode_place (.error ()) = (none, none) ∧
    (∀ (status : Nat) (results : List (ℚ × ℚ)), status ≠ 200 →
      geocode_place (.ok (status, results)) = (none, none)) ∧
    (∀ status : Nat, geocode_place (.ok (status, [])) = (none, none)) ∧
    (∀ (r : ℚ × ℚ) (rs : List (ℚ × ℚ)),
      geocode_place (.ok (200, r :: rs)) = (some r.1, some r.2)) := by
  refine ⟨rfl, ?_, ?_, ?_⟩
  · intro status results h
    cases results with
    | nil => rfl
    | cons r rs => simp [geocode_place, h]
  · intro status; rfl
  · intro r rs; rfl

theorem geocode_place_interface_witness :
    (404 : Nat) ≠ 200 ∧ geocode_place (.ok (404, [((1 : ℚ), 2)])) = (none, none) :=
  ⟨by decide, geocode_place_interface.2.1 404 [(1, 2)] (by decide)⟩

/-- Claim C1: after the startup selection path (dummy flag, first `*.gguf`, or no
artifact) a backend is always installed; `load_llm` always installs some
backend; and when real construction fails it installs the stub whose
placeholder message embeds the failure reason. -/
theorem backend_always_installed :
    ∀ (construct : Option String → Except String Unit) (args_dummy : Bool)
      (gguf_models : List String),
      (startupLoad construct args_dummy gguf_models).llm.isSome = true ∧
      (∀ (st : LlmState) (mp : Option String) (d : Bool),
        (load_llm construct st mp d).llm.isSome = true) ∧
      (∀ (st : LlmState) (mp : Option String) (e : String),
        construct mp = .error e →
        (load_llm construct st mp false).llm = some (.dummy (failPrefix ++ e))) := by
  intro construct args_dummy gguf_models
  have hload : ∀ (st : LlmState) (mp : Option String) (d : Bool),
      (load_llm construct st mp d).llm.isSome = true := by
    intro st mp d
    unfold load_llm
    split
    · rfl
    · split <;> rfl
  refine ⟨?_, hload, ?_⟩
  · unfold startupLoad
    split
    · exact hload _ _ _
    · split <;> exact hload _ _ _
  · intro st mp e he
    simp [load_llm, he]

theorem backend_always_installed_witness :
    ((fun _ => Except.error "boom" : Option String → Except String Unit)
        (some "model.gguf") = .error "boom") ∧
    (load_llm (fun _ => .error "boom") initState (some "model.gguf") false).llm
      = some (.dummy (failPrefix ++ "boom")) :=
  ⟨rfl, (backend_always_installed (fun _ => .error "boom") false []).2.2
    initState (some "model.gguf") "boom" rfl⟩

/-- Claim C3 counterexample: with an existing path whose construction fails,
`set_model` still answers 200 `{success: true, current: basename}` — not a
400/500 failure status — while the registry has fallen back to the stub. -/
theorem set_model_reports_success_on_load_failure :
    ((fun _ => Except.error "bad magic" : Option String → Except String Unit)
        (some "model.gguf") = .error "bad magic") ∧
    set_model (fun _ => .error "bad magic") (fun _ => true) initState
        (some "model.gguf")
      = ((200, .ok "model.gguf"),
         { llm := some (.dummy (failPrefix ++ "bad magic")), current_model := none }) :=
  ⟨rfl, rfl⟩

/-- Claim C3 amended: a missing/empty/nonexistent model path is rejected with 400
and the backend is unchanged; but when the path exists and loading fails,
`set_model` still reports `{success: true, current: basename}` with HTTP 200
(because `load_llm` swallows the failure), while the registry holds the
fallback stub, so the service remains usable; on success it installs the real
backend. -/
theorem set_model_behavior :
    ∀ (construct : Option String → Except String Unit)
      (path_exists : String → Bool) (st : LlmState) (body : Option String),
      (body = none →
        set_model construct path_exists st body = ((400, .err "Model not found"), st)) ∧
      (∀ m, body = some m → (m = "" ∨ path_exists m = false) →
        set_model construct path_exists st body = ((400, .err "Model not found"), st)) ∧
      (∀ m e, body = some m → m ≠ "" → path_exists m = true →
        construct (some m) = .error e →
        set_model construct path_exists st body
          = ((200, .ok (basename m)),
             { llm := some (.dummy (failPrefix ++ e)), current_model := none })) ∧
      (∀ m u, body = some m → m ≠ "" → path_exists m = true →
        construct (some m) = .ok u →
        set_model construct path_exists st body
          = ((200, .ok (basename m)),
             { llm := some (.llama m), current_model := some m })) := by
  intro construct path_exists st body
  refine ⟨?_, ?_, ?_, ?_⟩
  · rintro rfl; rfl
  · rintro m rfl h
    rcases h with h | h <;> simp [set_model, h]
  · rintro m e rfl hm hex he
    simp [set_model, hm, hex, load_llm, he]
  · rintro m u rfl hm hex hu
    simp [set_model, hm, hex, load_llm, hu]

theorem set_model_behavior_witness :
    set_model (fun _ => .error "oom") (fun _ => true) initState (some "a/b.gguf")
      = ((200, .ok "b.gguf"),
         { llm := some (.dummy (failPrefix ++ "oom")), current_model := none }) :=
  (set_model_behavior (fun _ => .error "oom") (fun _ => true) initState
    (some "a/b.gguf")).2.2.1 "a/b.gguf" "oom" rfl (by decide) rfl rfl

/-- Claim C2 counterexample: a query whose place extraction succeeds and whose
geocoding succeeds with both coordinates present, but with latitude `0`
(Python-falsy), produces a response with no location block — the claim's
"exactly when ... both coordinates present" fails on the code's
`if lat and lon` truthiness test. -/
theorem ask_zero_coordinate_drops_location :
    extract_place_name "Wildfire near Los Angeles" = some "Los Angeles" ∧
    geocode_place ((fun _ => (Except.ok (200, [((0 : ℚ), 10)]) : GeoHttp))
        "Los Angeles") = (some 0, some 10) ∧
    ask (fun _ => "answer") (fun _ => .ok (200, [(0, 10)]))
        (some "Wildfire near Los Angeles")
      = .response (to_markdown "answer") none := by
  refine ⟨rfl, rfl, rfl⟩

/-- Claim C2 amended: the response carries the location block exactly when place
extraction found a (nonempty) place and geocoding returned both coordinates
with both nonzero (Python truthiness of `lat and lon`); whenever either
coordinate is missing — or zero — there is no location block at all, and a
present block always carries the extracted name and both coordinates (never
a half-filled block). -/
theorem ask_location_truthiness :
    ∀ (ragInvoke : String → String) (geoResp : String → GeoHttp) (q : String),
      q ≠ "" →
      ∃ location,
        ask ragInvoke geoResp (some q)
          = .response (to_markdown (ragInvoke q)) location ∧
        (location.isSome = true ↔
          ∃ p a b, extract_place_name q = some p ∧ p ≠ "" ∧
            geocode_place (geoResp p) = (some a, some b) ∧ a ≠ 0 ∧ b ≠ 0) ∧
        (∀ p, extract_place_name q = some p →
          ((geocode_place (geoResp p)).1 = none ∨
           (geocode_place (geoResp p)).2 = none) →
          location = none) ∧
        (∀ l, location = some l →
          ∃ p, extract_place_name q = some p ∧ l.name = some p ∧
            geocode_place (geoResp p) = (some l.lat, some l.lon)) := by
  intro ragInvoke geoResp q hq
  refine ⟨askLocationOf geoResp q, ?_, ?_, ?_, ?_⟩
  · simp [ask, hq]
  · constructor
    · intro hsome
      rcases hp : extract_place_name q with _ | p
      · simp [askLocationOf, hp] at hsome
      · by_cases hpe : p = ""
        · simp [askLocationOf, hp, hpe] at hsome
        · rcases hg : geocode_place (geoResp p) with ⟨la?, lo?⟩
          rcases la? with _ | la
          · simp [askLocationOf, hp, hpe, hg] at hsome
          · rcases lo? with _ | lo
            · simp [askLocationOf, hp, hpe, hg] at hsome
            · by_cases hz : la ≠ 0 ∧ lo ≠ 0
              · exact ⟨p, la, lo, hp ▸ rfl, hpe, hg, hz⟩
              · simp [askLocationOf, hp, hpe, hg, hz] at hsome
    · rintro ⟨p, a, b, hp, hpe, hg, ha, hb⟩
      simp [askLocationOf, hp, hpe, hg, ha, hb]
  · intro p hp hmiss
    by_cases hpe : p = ""
    · simp [askLocationOf, hp, hpe]
    · rcases hg : geocode_place (geoResp p) with ⟨la?, lo?⟩
      rw [hg] at hmiss
      rcases la? with _ | la
      · simp [askLocationOf, hp, hpe, hg]
      · rcases lo? with _ | lo
        · simp [askLocationOf, hp, hpe, hg]
        · simp at hmiss
  · intro l hl
    rcases hp : extract_place_name q with _ | p
    · simp [askLocationOf, hp] at hl
    · by_cases hpe : p = ""
      · simp [askLocationOf, hp, hpe] at hl
      · rcases hg : geocode_place (geoResp p) with ⟨la?, lo?⟩
        rcases la? with _ | la
        · simp [askLocationOf, hp, hpe, hg] at hl
        · rcases lo? with _ | lo
          · simp [askLocationOf, hp, hpe, hg] at hl
          · by_cases hz : la ≠ 0 ∧ lo ≠ 0
            · simp [askLocationOf, hp, hpe, hg, hz] at hl
              exact ⟨p, rfl, by rw [← hl], by rw [← hl, hg]⟩
            · simp [askLocationOf, hp, hpe, hg, hz] at hl

theorem ask_location_truthiness_witness :
    ("Wildfire near Los Angeles" : String) ≠ "" ∧
    ∃ location,
      ask (fun _ => "answer") (fun _ => .ok (200, [((34 : ℚ), -118)]))
          (some "Wildfire near Los Angeles")
        = .response (to_markdown "answer") location ∧
      (location.isSome = true ↔
        ∃ p a b, extract_place_name "Wildfire near Los Angeles" = some p ∧
          p ≠ "" ∧
          geocode_place ((fun _ => (Except.ok (200, [((34 : ℚ), -118)]) : GeoHttp)) p)
            = (some a, some b) ∧ a ≠ 0 ∧ b ≠ 0) ∧
      (∀ p, extract_place_name "Wildfire near Los Angeles" = some p →
        ((geocode_place ((fun _ => (Except.ok (200, [((34 : ℚ), -118)]) : GeoHttp)) p)).1 = none ∨
         (geocode_place ((fun _ => (Except.ok (200, [((34 : ℚ), -118)]) : GeoHttp)) p)).2 = none) →
        location = none) ∧
      (∀ l, location = some l →
        ∃ p, extract_place_name "Wildfire near Los Angeles" = some p ∧
          l.name = some p ∧
          geocode_place ((fun _ => (Except.ok (200, [((34 : ℚ), -118)]) : GeoHttp)) p)
            = (some l.lat, some l.lon)) :=
  ⟨by decide,
   ask_location_truthiness (fun _ => "answer")
     (fun _ => .ok (200, [((34 : ℚ), -118)])) "Wildfire near Los Angeles"
     (by decide)⟩

/-- Helper for C5: a substitution pass leaves the input unchanged when its
pattern matches nowhere (the traversal of `hasGo` mirrors `subGo`). -/
theorem subGo_eq_of_hasGo_false (r : SubRule) :
    ∀ (n : Nat) (b : Bool) (s : Chars), hasGo r n b s = false → subGo r n b s = s := by
  intro n
  induction n with
  | zero => intro b s _; rfl
  | succ n ih =>
    intro b s h
    have step : ∀ s : Chars, hasGo r (n + 1) false s = false →
        subGo r (n + 1) false s = s := by
      intro s h
      cases s with
      | nil => rfl
      | cons c t =>
        by_cases hc : c = '\n'
        · cases hrt : r t with
          | some v => simp [hasGo, hc, hrt] at h
          | none =>
            simp only [hasGo, hc, hrt, if_true] at h
            simp [subGo, hc, hrt, ih false t h]
        · simp only [hasGo, hc, if_false] at h
          simp [subGo, hc, ih false t h]
    cases b with
    | false => exact step s h
    | true =>
      cases hr : r s with
      | some v => simp [hasGo, hr] at h
      | none =>
        have h' : hasGo r (n + 1) false s = false := by
          cases s with
          | nil => rfl
          | cons c t =>
            simp only [hasGo, hr] at h
            simpa [hasGo] using h
        have hs' : subGo r (n + 1) false s = s := step s h'
        cases s with
        | nil => simp [subGo, hr]
        | cons c t =>
          simp only [subGo, hr]
          simpa [subGo] using hs'

/-- Helper for C5: a whole pass is the identity when its rule matches
nowhere. -/
theorem subOnce_eq_of_not_matches (r : SubRule) (s : Chars)
    (h : ruleMatches r s = false) : subOnce r s = s :=
  subGo_eq_of_hasGo_false r (s.length + 1) true s h

/-- Helper for C5: all passes together are the identity when no rule
matches. -/
theorem applyRules_eq_of_no_matches :
    ∀ (rules : List SubRule) (s : Chars),
      (∀ r ∈ rules, ruleMatches r s = false) → applyRules rules s = s := by
  intro rules
  induction rules with
  | nil => intro s _; rfl
  | cons r rs ih =>
    intro s h
    have h1 : subOnce r s = s :=
      subOnce_eq_of_not_matches r s (h r (List.mem_cons_self r rs))
    calc applyRules (r :: rs) s = applyRules rs (subOnce r s) := rfl
      _ = applyRules rs s := by rw [h1]
      _ = s := ih s fun r' hr' => h r' (List.mem_cons_of_mem r hr')

/-- Claim C5 counterexample: `to_markdown` is not idempotent.  On
`"Summary\nSummary\n"` the first pass rewrites only the first header line —
its match consumes the newline that separates the two lines, so `re.sub`
resumes past it — and a second application rewrites the second line too. -/
theorem to_markdown_not_idempotent :
    to_markdown (to_markdown "Summary\nSummary\n")
      ≠ to_markdown "Summary\nSummary\n" := by
  decide

/-- Claim C5 amended: `to_markdown` is total and text matched by none of its
rules passes through unchanged; it is however not idempotent — a second
application can rewrite a header line whose leading newline was consumed by a
preceding replacement in the first pass. -/
theorem to_markdown_passthrough :
    ∀ s : String, noRuleMatches s = true → to_markdown s = s := by
  intro s h
  have h' : ∀ r ∈ ruleList, ruleMatches r s.toList = false := by
    intro r hr
    have := (List.all_eq_true.mp h) r hr
    simpa using this
  show String.mk (applyRules ruleList s.toList) = s
  rw [applyRules_eq_of_no_matches ruleList s.toList h']
  rfl

theorem to_markdown_passthrough_witness :
    noRuleMatches "The fire is big" = true ∧
    to_markdown "The fire is big" = "The fire is big" :=
  ⟨by decide, to_markdown_passthrough "The fire is big" (by decide)⟩

/-- Helper for C6: one `if/elif` step appends the point to exactly the bucket
of its first matching category. -/
theorem getCat_addLoc {α : Type} (cats : ResourceCats α) (l : SurroundingLoc α)
    (c : Category) :
    getCat (addLoc cats l) c
      = getCat cats c ++ if firstCat l = some c then [l] else [] := by
  unfold addLoc firstCat categoryTable
  cases h1 : containsSub "fire".toList (pyLower l.type_.toList) with
  | true => cases c <;> simp_all [List.find?, getCat]
  | false =>
  cases h2 : containsSub "police".toList (pyLower l.type_.toList) with
  | true => cases c <;> simp_all [List.find?, getCat]
  | false =>
  cases h3 : containsSub "hospital".toList (pyLower l.type_.toList) with
  | true => cases c <;> simp_all [List.find?, getCat]
  | false =>
  cases h4 : containsSub "water".toList (pyLower l.type_.toList) with
  | true => cases c <;> simp_all [List.find?, getCat]
  | false =>
  cases h5 : containsSub "residential".toList (pyLower l.type_.toList) with
  | true => cases c <;> simp_all [List.find?, getCat]
  | false =>
  cases h6 : containsSub "forest".toList (pyLower l.type_.toList) with
  | true => cases c <;> simp_all [List.find?, getCat]
  | false => cases c <;> simp_all [List.find?, getCat]

/-- Helper for C6: folding the `if/elif` chain over a point list filters each
bucket by first-matching category. -/
theorem getCat_foldl {α : Type} (c : Category) :
    ∀ (pts : List (SurroundingLoc α)) (acc : ResourceCats α),
      getCat (pts.foldl addLoc acc) c
        = getCat acc c ++ pts.filter (fun l => decide (firstCat l = some c)) := by
  intro pts
  induction pts with
  | nil => intro acc; simp
  | cons l ls ih =>
    intro acc
    rw [List.foldl_cons, ih, getCat_addLoc]
    by_cases h : firstCat l = some c
    · simp [h, List.filter_cons]
    · simp [h, List.filter_cons]

/-- Helper for C6: each bucket of `buildCats` is the first-match filter of
the 30 closest points. -/
theorem buildCats_filter {α : Type} (pts : List (SurroundingLoc α))
    (c : Category) :
    getCat (buildCats pts) c
      = (pts.take 30).filter fun l => decide (firstCat l = some c) := by
  unfold buildCats
  rw [getCat_foldl]
  cases c <;> rfl

/-- Claim C6: the nearby points are sorted ascending by distance before any
categorization; `plan_action` considers at most the 30 closest, buckets each
into the first category (fixed order) whose key occurs case-insensitively in
its raw type tag, drops unmatched points from the report, and renders at most
10 entries per non-empty category in the fixed `name (type) - d km away`
shape. -/
theorem plan_action_bucketing :
    (∀ (elements : List OsmElement) (lat lon : ℝ),
      (fetch_surroundings elements lat lon).Pairwise
        fun p q => p.distance ≤ q.distance) ∧
    (∀ (α : Type) (pts : List (SurroundingLoc α)) (c : Category),
      getCat (buildCats pts) c
        = (pts.take 30).filter fun l => decide (firstCat l = some c)) ∧
    (∀ (α : Type) (pts : List (SurroundingLoc α)) (l : SurroundingLoc α),
      firstCat l = none → ∀ c : Category, l ∉ getCat (buildCats pts) c) ∧
    (∀ (α : Type) (fmt : α → String) (cats : ResourceCats α) (c : Category),
      entriesFor fmt cats c = ((getCat cats c).take 10).map (entryLine fmt) ∧
      (entriesFor fmt cats c).length ≤ 10) := by
  refine ⟨?_, ?_, ?_, ?_⟩
  · intro elements lat lon
    have hs : ((elements.filterMap (elemToLoc lat lon)).mergeSort
        fun p q => decide (p.distance ≤ q.distance)).Pairwise
          (fun p q => decide (p.distance ≤ q.distance) = true) := by
      apply List.sorted_mergeSort
      · intro a b c hab hbc
        exact decide_eq_true
          (le_trans (of_decide_eq_true hab) (of_decide_eq_true hbc))
      · intro a b
        simp only [Bool.or_eq_true, decide_eq_true_eq]
        exact le_total a.distance b.distance
    exact hs.imp fun h => of_decide_eq_true h
  · intro α pts c
    exact buildCats_filter pts c
  · intro α pts l hnone c hmem
    rw [buildCats_filter] at hmem
    rcases List.mem_filter.mp hmem with ⟨_, hl⟩
    rw [hnone] at hl
    simp at hl
  · intro α fmt cats c
    refine ⟨rfl, ?_⟩
    simp only [entriesFor, List.length_map, List.length_take]
    exact Nat.min_le_left _ _

theorem plan_action_bucketing_witness :
    firstCat (⟨"Main Street", "Road", 1, 2, (3 : ℚ)⟩ : SurroundingLoc ℚ) = none ∧
    (⟨"Main Street", "Road", 1, 2, (3 : ℚ)⟩ : SurroundingLoc ℚ)
      ∉ getCat (buildCats [⟨"Main Street", "Road", 1, 2, (3 : ℚ)⟩])
          Category.fireStation :=
  ⟨by decide,
   plan_action_bucketing.2.2.1 ℚ [⟨"Main Street", "Road", 1, 2, (3 : ℚ)⟩]
     ⟨"Main Street", "Road", 1, 2, (3 : ℚ)⟩ (by decide) Category.fireStation⟩

/-- Claim C7: when the model invocation succeeds, the returned markers have `fire`
equal to the input coordinate, `safe_zones` the first 3 Residential Area
points, `crews` all Fire Station points, `hospitals` all Hospital points,
`water_sources` all Water Source points, and `aerial` always empty; a lookup
yielding zero resources (including a failure already degraded to the empty
list) still produces a non-error plan with all marker lists empty. -/
theorem plan_action_markers :
    (∀ (α : Type) (ragInvoke : String → Except String String)
       (fmt : α → String) (sOf : α → α → List (SurroundingLoc α))
       (lat lon : α) (plan : String) (m : Markers α),
       plan_action ragInvoke fmt sOf (some lat) (some lon) = .success plan m →
         m.fire = (lat, lon) ∧
         m.safe_zones
           = ((buildCats (sOf lat lon)).residential_area.map
               fun l => (l.lat, l.lon)).take 3 ∧
         m.crews = (buildCats (sOf lat lon)).fire_station.map
               (fun l => (l.lat, l.lon)) ∧
         m.hospitals = (buildCats (sOf lat lon)).hospital.map
               (fun l => (l.lat, l.lon)) ∧
         m.water_sources = (buildCats (sOf lat lon)).water_source.map
               (fun l => (l.lat, l.lon)) ∧
         m.aerial = []) ∧
    (∀ (α : Type) (ragInvoke : String → Except String String)
       (fmt : α → String) (sOf : α → α → List (SurroundingLoc α))
       (lat lon : α) (plan : String),
       sOf lat lon = [] →
       ragInvoke (planPrompt fmt lat lon (buildReport fmt emptyCats)) = .ok plan →
       plan_action ragInvoke fmt sOf (some lat) (some lon)
         = .success (to_markdown plan) ⟨(lat, lon), [], [], [], [], []⟩) := by
  constructor
  · intro α ragInvoke fmt sOf lat lon plan m h
    simp only [plan_action] at h
    rcases hE : ragInvoke
        (planPrompt fmt lat lon (buildReport fmt (buildCats (sOf lat lon))))
      with e | p
    · rw [hE] at h; exact absurd h (by simp)
    · rw [hE] at h
      have hm : m = buildMarkers lat lon (buildCats (sOf lat lon)) :=
        (by injection h with _ h2; exact h2.symm)
      subst hm
      exact ⟨rfl, rfl, rfl, rfl, rfl, rfl⟩
  · intro α ragInvoke fmt sOf lat lon plan hempty hok
    simp only [plan_action]
    rw [hempty]
    have hcats : buildCats ([] : List (SurroundingLoc α)) = emptyCats := rfl
    rw [hcats, hok]
    rfl

theorem plan_action_markers_witness :
    plan_action (fun _ => Except.ok "p") (fun _ : ℚ => "c") (fun _ _ => [])
        (some 1) (some 2)
      = .success (to_markdown "p") ⟨((1 : ℚ), 2), [], [], [], [], []⟩ :=
  plan_action_markers.2 ℚ (fun _ => Except.ok "p") (fun _ => "c")
    (fun _ _ => []) 1 2 "p" rfl rfl

/-- Claim C10: every `distance` field produced by `fetch_surroundings` equals the
planar approximation `sqrt((lat_el − lat)² + (lon_el − lon)²) · 111.32` over
raw degree differences (the formula the sort order and the 30-closest
truncation are based on) — not a great-circle distance. -/
theorem fetch_surroundings_planar_distance :
    ∀ (elements : List OsmElement) (lat lon : ℝ) (p : SurroundingLoc ℝ),
      p ∈ fetch_surroundings elements lat lon →
      p.distance
        = Real.sqrt ((p.lat - lat) ^ 2 + (p.lon - lon) ^ 2) * 111.32 := by
  intro elements lat lon p hp
  unfold fetch_surroundings at hp
  rw [List.mem_mergeSort, List.mem_filterMap] at hp
  obtain ⟨e, _, he⟩ := hp
  unfold elemToLoc at he
  split at he
  · rcases hla : e.lat with _ | la <;> rcases hlo : e.lon with _ | lo <;>
      simp only [hla, hlo] at he <;>
      first
        | (cases he; rfl)
        | cases he
  · rcases hla : e.center_lat with _ | la <;> rcases hlo : e.center_lon with _ | lo <;>
      simp only [hla, hlo] at he <;>
      first
        | (cases he; rfl)
        | cases he

/-- A concrete Overpass node for the C10 witness. -/
def nodeElem : OsmElement :=
  { elem_type := "node", tags := [], lat := some 3, lon := some 4,
    center_lat := none, center_lon := none }

/-- The surrounding-location record the pipeline builds from `nodeElem` at
query point `(0, 0)`. -/
noncomputable def nodeLoc : SurroundingLoc ℝ :=
  { name := "Unnamed location", type_ := "Unknown", lat := 3, lon := 4,
    distance := Real.sqrt ((3 - 0) ^ 2 + (4 - 0) ^ 2) * 111.32 }

theorem fetch_surroundings_planar_distance_witness :
    nodeLoc ∈ fetch_surroundings [nodeElem] 0 0 ∧
    nodeLoc.distance
      = Real.sqrt ((nodeLoc.lat - 0) ^ 2 + (nodeLoc.lon - 0) ^ 2) * 111.32 := by
  have hmap : [nodeElem].filterMap (elemToLoc 0 0) = [nodeLoc] := rfl
  have hmem : nodeLoc ∈ fetch_surroundings [nodeElem] 0 0 := by
    unfold fetch_surroundings
    rw [hmap, List.mergeSort_singleton]
    exact List.mem_singleton.mpr rfl
  exact ⟨hmem, fetch_surroundings_planar_distance [nodeElem] 0 0 nodeLoc hmem⟩

end FireGPT
